import Mathlib

/-!
# Essential-matrix geometric filter (orthographic, a contrario)

A shallow embedding of `GeometricFilter_EOMatrix_RA`
(`openMVG/matching_image_collection/Eo_Robust.hpp`) and the properties of its
two member functions, `Robust_estimation` and `Geometry_guided_matching`.

Conventions of the embedding.

* `std::map` containers are functions from the key to an optional value; `at`
  on a missing key raises `std::out_of_range`, `count` tells whether the key
  is bound.
* Reference parameters and the members of `this` are passed in and handed
  back in the result record, also when the call ends by an exception.
* The collaborators declared in headers outside this file (`isPinhole`,
  `MatchesPairToMat`, the kernel adaptor, `ACRANSAC`) are the fields of a
  capability record `Collaborators`; they are total, deterministic functions
  of their arguments and of the random source they draw from.
* The random source from which `ACRANSAC` draws its samples is ambient in the
  source; here it is an argument of the call and is handed back in the result.
* `double`, `Mat`, `Mat3`, the kernel, the regions provider and the random
  source are type parameters: nothing here computes with them.
-/

namespace openMVG

/-- The index type `IndexT` (`uint32_t`) of views and intrinsics. -/
abbrev IndexT := Nat

/-- A pair of view identifiers, `Pair = std::pair<IndexT, IndexT>`. -/
abbrev Pair := IndexT × IndexT

/-- The camera type tag `cameras::EINTRINSIC`, an enumeration. -/
abbrev EINTRINSIC := Nat

namespace matching

/-- Modelled from the spec: the putative match of `indMatch.hpp`, a pair of
feature indices, one per view. -/
structure IndMatch where
  i_ : Nat
  j_ : Nat
deriving DecidableEq, Repr

/-- The sequence type `matching::IndMatches = std::vector<IndMatch>`. -/
abbrev IndMatches := List IndMatch

end matching

namespace sfm

/-- The fields of `sfm::View` that the filter reads. -/
structure View where
  id_intrinsic : IndexT
  ui_width : Nat
  ui_height : Nat
deriving DecidableEq, Repr

end sfm

namespace cameras

/-- A camera behind an `IntrinsicBase` pointer: its type tag `getType()` and
the calibration matrix `K()` that the downcast to `Pinhole_Intrinsic` exposes
(read only for cameras whose tag passed `isPinhole`). -/
structure IntrinsicBase (Mat3 : Type) where
  getType : EINTRINSIC
  K : Mat3

end cameras

namespace sfm

/-- The two containers of `sfm::SfM_Data` that the filter reads. A bound
intrinsic id holds a shared pointer, which may be null (`none`). -/
structure SfM_Data (Mat3 : Type) where
  views : IndexT → Option View
  intrinsics : IndexT → Option (Option (cameras.IntrinsicBase Mat3))

end sfm

namespace robust

/-- What one `ACRANSAC` call leaves behind: the inlier indices written to
`vec_inliers`, the content of the model pointer, the returned pair of doubles
and the random source after the draws. -/
structure ACRansacResult (D Mat3 Rng : Type) where
  vec_inliers : List Nat
  model : Mat3
  ACRansacOut : D × D
  rng : Rng

end robust

namespace matching_image_collection

open matching sfm cameras robust

/-- The collaborators of the filter, declared in headers that are not part of
this file. `ACRANSAC rng kernel n model precision` receives the prior content
of the model pointer; `oob v i` is what the unchecked `v[i]` reads when `i` is
not a position of `v`. -/
structure Collaborators (D Mat Mat3 Kernel Provider Rng : Type) where
  isPinhole : EINTRINSIC → Bool
  MatchesPairToMat : Pair → IndMatches → SfM_Data Mat3 → Provider → Mat × Mat
  KernelType : Mat → Nat → Nat → Mat → Nat → Nat → Mat3 → Mat3 → Kernel
  MINIMUM_SAMPLES : Nat
  ACRANSAC : Rng → Kernel → Nat → Mat3 → D → ACRansacResult D Mat3 Rng
  oob : IndMatches → Nat → IndMatch

/-- The data members of `GeometricFilter_EOMatrix_RA`. -/
structure GeometricFilter_EOMatrix_RA (D Mat3 : Type) where
  m_dPrecision : D
  m_E : Mat3

/-- The constructor: stores the precision bound (the caller passes
`infinity` for the default argument) and the identity matrix `Identity`. -/
def GeometricFilter_EOMatrix_RA.ctor {D Mat3 : Type} (Identity : Mat3) (dPrecision : D) :
    GeometricFilter_EOMatrix_RA D Mat3 :=
  { m_dPrecision := dPrecision, m_E := Identity }

/-- How a call of `Robust_estimation` ends: a returned boolean, or the
`std::out_of_range` exception of a checked map lookup. -/
inductive Outcome where
  | returned (b : Bool)
  | out_of_range
deriving DecidableEq, Repr

/-- The observable state after a call of `Robust_estimation`. -/
structure Result (D Mat3 Rng : Type) where
  outcome : Outcome
  self : GeometricFilter_EOMatrix_RA D Mat3
  geometric_inliers : IndMatches
  rng : Rng

section
variable {D Mat Mat3 Kernel Provider Rng : Type}

/-- The member `clear()` of `std::vector`. -/
def clear (_v : IndMatches) : IndMatches := []

/-- The unchecked `vec_PutativeMatches[index]`. -/
def index_unchecked (C : Collaborators D Mat Mat3 Kernel Provider Rng)
    (vec_PutativeMatches : IndMatches) (index : Nat) : IndMatch :=
  match vec_PutativeMatches[index]? with
  | some m => m
  | none => C.oob vec_PutativeMatches index

/-- Lines 66-71: `GetIntrinsics().count(id) ? GetIntrinsics().at(id).get() : nullptr`. -/
def camera_of (sfm_data : SfM_Data Mat3) (view : View) : Option (IntrinsicBase Mat3) :=
  match sfm_data.intrinsics view.id_intrinsic with
  | some ptr => ptr
  | none => none

/-- Lines 82-113: materialise the correspondences, build the kernel and run
`ACRANSAC` with 4096 iterations on the stored model and precision bound. -/
def estimate (C : Collaborators D Mat Mat3 Kernel Provider Rng)
    (self : GeometricFilter_EOMatrix_RA D Mat3) (rng : Rng)
    (sfm_data : SfM_Data Mat3) (regions_provider : Provider) (pairIndex : Pair)
    (vec_PutativeMatches : IndMatches)
    (view_I view_J : View) (cam_I cam_J : IntrinsicBase Mat3) : ACRansacResult D Mat3 Rng :=
  let x := C.MatchesPairToMat pairIndex vec_PutativeMatches sfm_data regions_provider
  let kernel := C.KernelType
    x.1 view_I.ui_width view_I.ui_height
    x.2 view_J.ui_width view_J.ui_height
    cam_I.K cam_J.K
  C.ACRANSAC rng kernel 4096 self.m_E self.m_dPrecision

/-- Line 116: `vec_inliers.size() > KernelType::MINIMUM_SAMPLES * 2.5`, the
comparison of `n` with `2.5 * MINIMUM_SAMPLES` cleared of its denominator
(both sides are exact in `double` below `2^53`). -/
def enough_inliers (C : Collaborators D Mat Mat3 Kernel Provider Rng) (n : Nat) : Bool :=
  decide (5 * C.MINIMUM_SAMPLES < 2 * n)

/-- Lines 119-121: the loop that pushes `vec_PutativeMatches[index]` for each
reported index, in the order of `vec_inliers`. -/
def push_inliers (C : Collaborators D Mat Mat3 Kernel Provider Rng)
    (vec_PutativeMatches : IndMatches) (vec_inliers : List Nat)
    (geometric_inliers : IndMatches) : IndMatches :=
  vec_inliers.foldl
    (fun acc index => acc ++ [index_unchecked C vec_PutativeMatches index])
    geometric_inliers

/-- The member function `Robust_estimation`. -/
def Robust_estimation (C : Collaborators D Mat Mat3 Kernel Provider Rng)
    (self : GeometricFilter_EOMatrix_RA D Mat3) (rng : Rng)
    (sfm_data : SfM_Data Mat3) (regions_provider : Provider) (pairIndex : Pair)
    (vec_PutativeMatches : IndMatches) (geometric_inliers : IndMatches) :
    Result D Mat3 Rng :=
  let geometric_inliers := clear geometric_inliers
  let iIndex := pairIndex.1
  let jIndex := pairIndex.2
  match sfm_data.views iIndex with
  | none => ⟨Outcome.out_of_range, self, geometric_inliers, rng⟩
  | some view_I =>
  match sfm_data.views jIndex with
  | none => ⟨Outcome.out_of_range, self, geometric_inliers, rng⟩
  | some view_J =>
  match camera_of sfm_data view_I, camera_of sfm_data view_J with
  | some cam_I, some cam_J =>
    if !C.isPinhole cam_I.getType || !C.isPinhole cam_J.getType then
      ⟨Outcome.returned false, self, geometric_inliers, rng⟩
    else
      let r := estimate C self rng sfm_data regions_provider pairIndex
        vec_PutativeMatches view_I view_J cam_I cam_J
      if enough_inliers C r.vec_inliers.length then
        ⟨Outcome.returned true, { self with m_E := r.model },
          push_inliers C vec_PutativeMatches r.vec_inliers geometric_inliers, r.rng⟩
      else
        ⟨Outcome.returned false, { self with m_E := r.model }, geometric_inliers, r.rng⟩
  | _, _ => ⟨Outcome.returned false, self, geometric_inliers, rng⟩

/-- The member function `Geometry_guided_matching`: the returned boolean, the
estimator and the `matches` reference parameter after the call. -/
def Geometry_guided_matching
    (self : GeometricFilter_EOMatrix_RA D Mat3)
    (_sfm_data : SfM_Data Mat3) (_regions_provider : Provider) (_pairIndex : Pair)
    (_dDistanceRatio : D) (matches_ : IndMatches) :
    Bool × GeometricFilter_EOMatrix_RA D Mat3 × IndMatches :=
  (false, self, matches_)

end

/-! ## Concrete collaborators

A small instance used to evaluate the filter: a coordinate matrix is its
number of columns, the kernel is the number of correspondences, and the
estimator reports the indices `pick n` for a kernel over `n` correspondences
and leaves the model pointer as it found it. -/

/-- Concrete collaborators with three-point minimal samples; tags `1..5` are
the pinhole variants. -/
def demo_collaborators (pick : Nat → List Nat) : Collaborators Unit Nat Unit Nat Unit Unit where
  isPinhole := fun t => decide (0 < t) && decide (t < 6)
  MatchesPairToMat := fun _ ms _ _ => (ms.length, ms.length)
  KernelType := fun xI _ _ _ _ _ _ _ => xI
  MINIMUM_SAMPLES := 3
  ACRANSAC := fun rng kernel _ model precision => ⟨pick kernel, model, (precision, precision), rng⟩
  oob := fun _ _ => ⟨0, 0⟩

/-- View `0` of the demo dataset. -/
def demo_view_0 : View := ⟨0, 640, 480⟩

/-- View `1` of the demo dataset. -/
def demo_view_1 : View := ⟨1, 640, 480⟩

/-- View `2` of the demo dataset: its intrinsic id `7` is not registered. -/
def demo_view_2 : View := ⟨7, 640, 480⟩

/-- View `3` of the demo dataset: its intrinsic `2` is a spherical camera. -/
def demo_view_3 : View := ⟨2, 640, 480⟩

/-- A pinhole camera (tag `1`). -/
def demo_pinhole : IntrinsicBase Unit := ⟨1, ()⟩

/-- A spherical camera (tag `7`). -/
def demo_spherical : IntrinsicBase Unit := ⟨7, ()⟩

/-- Four views; intrinsics `0` and `1` are pinhole cameras, intrinsic `2` is a
spherical camera and no other id is registered. -/
def demo_sfm_data : SfM_Data Unit where
  views := fun i =>
    if i = 0 then some demo_view_0
    else if i = 1 then some demo_view_1
    else if i = 2 then some demo_view_2
    else if i = 3 then some demo_view_3
    else none
  intrinsics := fun i =>
    if i = 0 then some (some demo_pinhole)
    else if i = 1 then some (some demo_pinhole)
    else if i = 2 then some (some demo_spherical)
    else none

/-- The estimator built by the constructor. -/
def demo_filter : GeometricFilter_EOMatrix_RA Unit Unit :=
  GeometricFilter_EOMatrix_RA.ctor () ()

/-- A prior content of the output sequence. -/
def demo_prior : IndMatches := [⟨1, 1⟩]

/-- The pair of views `0` and `1`, both with a registered pinhole camera. -/
def demo_pair : Pair := (0, 1)

/-- The pair of views `0` and `2`; the intrinsic of view `2` is not registered. -/
def demo_pair_unregistered : Pair := (0, 2)

/-- The pair of views `0` and `3`; the camera of view `3` is spherical. -/
def demo_pair_spherical : Pair := (0, 3)

/-- The pair of view `0` and of `5`, which is not a view of the dataset. -/
def demo_pair_missing : Pair := (0, 5)

/-- An index list with a repeated entry, out of order. -/
def demo_unordered (_n : Nat) : List Nat := [7, 0, 3, 3, 1, 2, 5, 6]

/-- The index list `n - 1, ..., 1, 0`. -/
def demo_descending (n : Nat) : List Nat := (List.range n).reverse

/-- The putative matches `(k, k + 10)` for `k < n`. -/
def demo_matches (n : Nat) : IndMatches :=
  (List.range n).map fun k => ⟨k, k + 10⟩

end matching_image_collection
end openMVG

namespace openMVG.matching_image_collection
open matching sfm cameras robust

section
variable {D Mat Mat3 Kernel Provider Rng : Type}

/-! ## The steps of `Robust_estimation` -/

/-- An index that is a position of the vector reads the entry at it. -/
theorem index_unchecked_of_lt (C : Collaborators D Mat Mat3 Kernel Provider Rng)
    (v : IndMatches) (i : Nat) (h : i < v.length) :
    v[i]? = some (index_unchecked C v i) := by
  unfold index_unchecked
  rw [List.getElem?_eq_getElem h]

/-- The push loop appends the image of the index list, in its order. -/
theorem push_inliers_eq (C : Collaborators D Mat Mat3 Kernel Provider Rng)
    (v : IndMatches) (idx : List Nat) (g : IndMatches) :
    push_inliers C v idx g = g ++ idx.map (index_unchecked C v) := by
  unfold push_inliers
  induction idx generalizing g with
  | nil => simp
  | cons a t ih => simp [List.foldl_cons, ih]

/-- The floor of line 116 is the comparison with `2.5 * MINIMUM_SAMPLES`. -/
theorem enough_inliers_iff (C : Collaborators D Mat Mat3 Kernel Provider Rng) (n : Nat) :
    enough_inliers C n = true ↔ (5 / 2 : ℚ) * (C.MINIMUM_SAMPLES : ℚ) < (n : ℚ) := by
  unfold enough_inliers
  rw [decide_eq_true_iff]
  constructor
  · intro h
    have h1 : ((5 * C.MINIMUM_SAMPLES : ℕ) : ℚ) < ((2 * n : ℕ) : ℚ) := by exact_mod_cast h
    push_cast at h1
    linarith
  · intro h
    have h1 : ((5 * C.MINIMUM_SAMPLES : ℕ) : ℚ) < ((2 * n : ℕ) : ℚ) := by
      push_cast
      linarith
    exact_mod_cast h1

/-- A view identifier missing from the view map ends the call by the
exception of `at`, with the output cleared and nothing else touched. -/
theorem Robust_estimation_of_missing_view (C : Collaborators D Mat Mat3 Kernel Provider Rng)
    (self : GeometricFilter_EOMatrix_RA D Mat3) (rng : Rng)
    (sfm_data : SfM_Data Mat3) (regions_provider : Provider) (pairIndex : Pair)
    (vec_PutativeMatches geometric_inliers : IndMatches)
    (h : sfm_data.views pairIndex.1 = none ∨ sfm_data.views pairIndex.2 = none) :
    Robust_estimation C self rng sfm_data regions_provider pairIndex vec_PutativeMatches
      geometric_inliers = ⟨Outcome.out_of_range, self, [], rng⟩ := by
  unfold Robust_estimation
  rcases h with h | h
  · simp [h, clear]
  · cases hI : sfm_data.views pairIndex.1 <;> simp [h, hI, clear]

/-- The call on a pair whose views exist and one of whose cameras fails the
gate of lines 73-76. -/
theorem Robust_estimation_of_gate_failed (C : Collaborators D Mat Mat3 Kernel Provider Rng)
    (self : GeometricFilter_EOMatrix_RA D Mat3) (rng : Rng)
    (sfm_data : SfM_Data Mat3) (regions_provider : Provider) (pairIndex : Pair)
    (vec_PutativeMatches geometric_inliers : IndMatches) (view_I view_J : View)
    (hI : sfm_data.views pairIndex.1 = some view_I)
    (hJ : sfm_data.views pairIndex.2 = some view_J)
    (hbad : ∀ cam_I cam_J, camera_of sfm_data view_I = some cam_I →
      camera_of sfm_data view_J = some cam_J →
      C.isPinhole cam_I.getType = false ∨ C.isPinhole cam_J.getType = false) :
    Robust_estimation C self rng sfm_data regions_provider pairIndex vec_PutativeMatches
      geometric_inliers = ⟨Outcome.returned false, self, [], rng⟩ := by
  unfold Robust_estimation
  simp only [hI, hJ, clear]
  cases hcI : camera_of sfm_data view_I with
  | none => rfl
  | some cam_I =>
    cases hcJ : camera_of sfm_data view_J with
    | none => rfl
    | some cam_J =>
      rcases hbad cam_I cam_J hcI hcJ with h | h <;> simp [h]

/-- The call on a pair whose views exist and whose cameras both pass the gate
of lines 73-76. -/
theorem Robust_estimation_of_gate_passed (C : Collaborators D Mat Mat3 Kernel Provider Rng)
    (self : GeometricFilter_EOMatrix_RA D Mat3) (rng : Rng)
    (sfm_data : SfM_Data Mat3) (regions_provider : Provider) (pairIndex : Pair)
    (vec_PutativeMatches geometric_inliers : IndMatches) (view_I view_J : View)
    (cam_I cam_J : IntrinsicBase Mat3)
    (hI : sfm_data.views pairIndex.1 = some view_I)
    (hJ : sfm_data.views pairIndex.2 = some view_J)
    (hcI : camera_of sfm_data view_I = some cam_I)
    (hcJ : camera_of sfm_data view_J = some cam_J)
    (hpI : C.isPinhole cam_I.getType = true)
    (hpJ : C.isPinhole cam_J.getType = true) :
    Robust_estimation C self rng sfm_data regions_provider pairIndex vec_PutativeMatches
      geometric_inliers =
    if enough_inliers C (estimate C self rng sfm_data regions_provider pairIndex
        vec_PutativeMatches view_I view_J cam_I cam_J).vec_inliers.length = true then
      ⟨Outcome.returned true,
        { self with m_E := (estimate C self rng sfm_data regions_provider pairIndex
            vec_PutativeMatches view_I view_J cam_I cam_J).model },
        (estimate C self rng sfm_data regions_provider pairIndex
            vec_PutativeMatches view_I view_J cam_I cam_J).vec_inliers.map
          (index_unchecked C vec_PutativeMatches),
        (estimate C self rng sfm_data regions_provider pairIndex
            vec_PutativeMatches view_I view_J cam_I cam_J).rng⟩
    else
      ⟨Outcome.returned false,
        { self with m_E := (estimate C self rng sfm_data regions_provider pairIndex
            vec_PutativeMatches view_I view_J cam_I cam_J).model },
        [],
        (estimate C self rng sfm_data regions_provider pairIndex
            vec_PutativeMatches view_I view_J cam_I cam_J).rng⟩ := by
  unfold Robust_estimation
  simp only [hI, hJ, hcI, hcJ, hpI, hpJ, clear, push_inliers_eq]
  simp

/-- An accepted call went through the gate and the floor, and its output is
the image of the reported index list. -/
theorem Robust_estimation_of_accepted (C : Collaborators D Mat Mat3 Kernel Provider Rng)
    (self : GeometricFilter_EOMatrix_RA D Mat3) (rng : Rng)
    (sfm_data : SfM_Data Mat3) (regions_provider : Provider) (pairIndex : Pair)
    (vec_PutativeMatches geometric_inliers : IndMatches) (view_I view_J : View)
    (cam_I cam_J : IntrinsicBase Mat3)
    (hI : sfm_data.views pairIndex.1 = some view_I)
    (hJ : sfm_data.views pairIndex.2 = some view_J)
    (hcI : camera_of sfm_data view_I = some cam_I)
    (hcJ : camera_of sfm_data view_J = some cam_J)
    (hacc : (Robust_estimation C self rng sfm_data regions_provider pairIndex
      vec_PutativeMatches geometric_inliers).outcome = Outcome.returned true) :
    enough_inliers C (estimate C self rng sfm_data regions_provider pairIndex
        vec_PutativeMatches view_I view_J cam_I cam_J).vec_inliers.length = true ∧
    (Robust_estimation C self rng sfm_data regions_provider pairIndex
      vec_PutativeMatches geometric_inliers).geometric_inliers =
      (estimate C self rng sfm_data regions_provider pairIndex
        vec_PutativeMatches view_I view_J cam_I cam_J).vec_inliers.map
        (index_unchecked C vec_PutativeMatches) := by
  by_cases hp : C.isPinhole cam_I.getType = true ∧ C.isPinhole cam_J.getType = true
  · have key := Robust_estimation_of_gate_passed C self rng sfm_data regions_provider
      pairIndex vec_PutativeMatches geometric_inliers view_I view_J cam_I cam_J
      hI hJ hcI hcJ hp.1 hp.2
    rw [key] at hacc ⊢
    by_cases he : enough_inliers C (estimate C self rng sfm_data regions_provider pairIndex
        vec_PutativeMatches view_I view_J cam_I cam_J).vec_inliers.length = true
    · simp [he]
    · simp [he] at hacc
  · have key := Robust_estimation_of_gate_failed C self rng sfm_data regions_provider
      pairIndex vec_PutativeMatches geometric_inliers view_I view_J hI hJ (by
        intro a b ha hb
        rw [hcI] at ha
        rw [hcJ] at hb
        cases ha
        cases hb
        by_contra hcon
        apply hp
        simpa using hcon)
    rw [key] at hacc
    simp at hacc

/-- A call that returns `true` resolved both views and both cameras. -/
theorem accepted_resolves (C : Collaborators D Mat Mat3 Kernel Provider Rng)
    (self : GeometricFilter_EOMatrix_RA D Mat3) (rng : Rng)
    (sfm_data : SfM_Data Mat3) (regions_provider : Provider) (pairIndex : Pair)
    (vec_PutativeMatches geometric_inliers : IndMatches)
    (hacc : (Robust_estimation C self rng sfm_data regions_provider pairIndex
      vec_PutativeMatches geometric_inliers).outcome = Outcome.returned true) :
    ∃ view_I view_J cam_I cam_J,
      sfm_data.views pairIndex.1 = some view_I ∧ sfm_data.views pairIndex.2 = some view_J ∧
      camera_of sfm_data view_I = some cam_I ∧ camera_of sfm_data view_J = some cam_J := by
  cases hI : sfm_data.views pairIndex.1 with
  | none =>
    rw [Robust_estimation_of_missing_view C self rng sfm_data regions_provider pairIndex
      vec_PutativeMatches geometric_inliers (Or.inl hI)] at hacc
    simp at hacc
  | some view_I =>
    cases hJ : sfm_data.views pairIndex.2 with
    | none =>
      rw [Robust_estimation_of_missing_view C self rng sfm_data regions_provider pairIndex
        vec_PutativeMatches geometric_inliers (Or.inr hJ)] at hacc
      simp at hacc
    | some view_J =>
      cases hcI : camera_of sfm_data view_I with
      | none =>
        rw [Robust_estimation_of_gate_failed C self rng sfm_data regions_provider pairIndex
          vec_PutativeMatches geometric_inliers view_I view_J hI hJ
          (by intro a b ha; rw [hcI] at ha; cases ha)] at hacc
        simp at hacc
      | some cam_I =>
        cases hcJ : camera_of sfm_data view_J with
        | none =>
          rw [Robust_estimation_of_gate_failed C self rng sfm_data regions_provider pairIndex
            vec_PutativeMatches geometric_inliers view_I view_J hI hJ
            (by intro a b _ hb; rw [hcJ] at hb; cases hb)] at hacc
          simp at hacc
        | some cam_J => exact ⟨view_I, view_J, cam_I, cam_J, rfl, rfl, hcI, hcJ⟩

/-- Distinct indices below `n` are at most `n` in number. -/
theorem length_le_of_nodup_of_lt (l : List Nat) (n : Nat) (hnd : l.Nodup)
    (hlt : ∀ i ∈ l, i < n) : l.length ≤ n := by
  have hsub : l.toFinset ⊆ Finset.range n := by
    intro i hi
    rw [List.mem_toFinset] at hi
    exact Finset.mem_range.mpr (hlt i hi)
  have hcard := Finset.card_le_card hsub
  rw [List.toFinset_card_of_nodup hnd, Finset.card_range] at hcard
  exact hcard

/-- Reading a vector at valid positions yields entries of the vector. -/
theorem map_index_unchecked_mem (C : Collaborators D Mat Mat3 Kernel Provider Rng)
    (v : IndMatches) (idx : List Nat) (hlt : ∀ i ∈ idx, i < v.length) :
    ∀ m ∈ idx.map (index_unchecked C v), m ∈ v := by
  intro m hm
  rw [List.mem_map] at hm
  obtain ⟨i, hi, rfl⟩ := hm
  exact List.getElem?_mem (index_unchecked_of_lt C v i (hlt i hi))

/-- Reading a vector at strictly increasing valid positions yields a
subsequence of the vector. -/
theorem map_index_unchecked_sublist (C : Collaborators D Mat Mat3 Kernel Provider Rng)
    (v : IndMatches) (idx : List Nat) (hinc : idx.Pairwise (· < ·))
    (hlt : ∀ i ∈ idx, i < v.length) :
    List.Sublist (idx.map (index_unchecked C v)) v := by
  have hpw : (idx.pmap (fun i h => (⟨i, h⟩ : Fin v.length)) hlt).Pairwise (· < ·) := by
    rw [List.pairwise_pmap]
    exact hinc.imp (fun hab _ _ => hab)
  have hsub := List.map_getElem_sublist hpw
  have heq : (idx.pmap (fun i h => (⟨i, h⟩ : Fin v.length)) hlt).map (fun i => v[i]) =
      idx.map (index_unchecked C v) := by
    rw [List.map_pmap]
    rw [← List.pmap_eq_map (fun _ => True) (index_unchecked C v) idx (fun _ _ => trivial)]
    apply List.pmap_congr_left
    intro i hi h1 _
    have h2 := index_unchecked_of_lt C v i h1
    rw [List.getElem?_eq_getElem h1] at h2
    exact Option.some.inj h2
  rw [heq] at hsub
  exact hsub

/-- A call that does not return `true` leaves the output sequence empty. -/
theorem geometric_inliers_nil_of_not_accepted (C : Collaborators D Mat Mat3 Kernel Provider Rng)
    (self : GeometricFilter_EOMatrix_RA D Mat3) (rng : Rng)
    (sfm_data : SfM_Data Mat3) (regions_provider : Provider) (pairIndex : Pair)
    (vec_PutativeMatches geometric_inliers : IndMatches)
    (hrej : (Robust_estimation C self rng sfm_data regions_provider pairIndex
      vec_PutativeMatches geometric_inliers).outcome ≠ Outcome.returned true) :
    (Robust_estimation C self rng sfm_data regions_provider pairIndex
      vec_PutativeMatches geometric_inliers).geometric_inliers = [] := by
  cases hI : sfm_data.views pairIndex.1 with
  | none =>
    rw [Robust_estimation_of_missing_view C self rng sfm_data regions_provider pairIndex
      vec_PutativeMatches geometric_inliers (Or.inl hI)]
  | some view_I =>
    cases hJ : sfm_data.views pairIndex.2 with
    | none =>
      rw [Robust_estimation_of_missing_view C self rng sfm_data regions_provider pairIndex
        vec_PutativeMatches geometric_inliers (Or.inr hJ)]
    | some view_J =>
      by_cases hg : ∃ cam_I cam_J, camera_of sfm_data view_I = some cam_I ∧
          camera_of sfm_data view_J = some cam_J ∧
          C.isPinhole cam_I.getType = true ∧ C.isPinhole cam_J.getType = true
      · obtain ⟨cam_I, cam_J, hcI, hcJ, hpI, hpJ⟩ := hg
        have key := Robust_estimation_of_gate_passed C self rng sfm_data regions_provider
          pairIndex vec_PutativeMatches geometric_inliers view_I view_J cam_I cam_J
          hI hJ hcI hcJ hpI hpJ
        rw [key] at hrej ⊢
        by_cases he : enough_inliers C (estimate C self rng sfm_data regions_provider pairIndex
      vec_PutativeMatches view_I view_J cam_I cam_J).vec_inliers.length = true
        · rw [if_pos he] at hrej
          exact absurd rfl hrej
        · rw [if_neg he]
      · rw [Robust_estimation_of_gate_failed C self rng sfm_data regions_provider pairIndex
          vec_PutativeMatches geometric_inliers view_I view_J hI hJ (by
            intro a b ha hb
            by_contra hcon
            apply hg
            refine ⟨a, b, ha, hb, ?_, ?_⟩
            · cases hx : C.isPinhole a.getType
              · exact absurd (Or.inl hx) hcon
              · rfl
            · cases hx : C.isPinhole b.getType
              · exact absurd (Or.inr hx) hcon
              · rfl)]

/-- Reading a vector at valid positions is reading it at the same positions
taken as bounded indices. -/
theorem map_index_unchecked_eq_map_fin (C : Collaborators D Mat Mat3 Kernel Provider Rng)
    (v : IndMatches) (idx : List Nat) (hlt : ∀ i ∈ idx, i < v.length) :
    (idx.pmap (fun i h => (⟨i, h⟩ : Fin v.length)) hlt).map (fun i => v[i]) =
      idx.map (index_unchecked C v) := by
  rw [List.map_pmap]
  rw [← List.pmap_eq_map (fun _ => True) (index_unchecked C v) idx (fun _ _ => trivial)]
  apply List.pmap_congr_left
  intro i _ h1 _
  have h2 := index_unchecked_of_lt C v i h1
  rw [List.getElem?_eq_getElem h1] at h2
  exact Option.some.inj h2

/-- In a vector of pairwise distinct entries, a list of valid positions whose
reads form a subsequence of the vector is strictly increasing. -/
theorem pairwise_lt_of_map_index_unchecked_sublist
    (C : Collaborators D Mat Mat3 Kernel Provider Rng)
    (v : IndMatches) (idx : List Nat) (hnd : v.Nodup)
    (hlt : ∀ i ∈ idx, i < v.length)
    (hsub : List.Sublist (idx.map (index_unchecked C v)) v) :
    idx.Pairwise (· < ·) := by
  obtain ⟨is, his, hpw⟩ := List.sublist_eq_map_getElem hsub
  rw [← map_index_unchecked_eq_map_fin C v idx hlt] at his
  have hinj : Function.Injective (fun i : Fin v.length => v[i]) := by
    intro a b hab
    exact List.nodup_iff_injective_get.mp hnd hab
  have heq := List.map_injective_iff.mpr hinj his
  rw [← heq, List.pairwise_pmap] at hpw
  exact hpw.imp_of_mem (fun ha hb h => h (hlt _ ha) (hlt _ hb))

/-! ## The claims -/

/-- C1. In a call whose two views exist and whose two cameras resolve and are
pinhole cameras, `Robust_estimation` returns `true` exactly when the number of
inlier indices reported by `ACRANSAC` is strictly greater than `2.5` times
`MINIMUM_SAMPLES`, and returns `false` otherwise; with `MINIMUM_SAMPLES = 3`
a count of 6 or 7 is rejected and a count of 8 or 9 is accepted. -/
theorem Robust_estimation_accepts_iff_above_floor (C : Collaborators D Mat Mat3 Kernel Provider Rng)
    (self : GeometricFilter_EOMatrix_RA D Mat3) (rng : Rng)
    (sfm_data : SfM_Data Mat3) (regions_provider : Provider) (pairIndex : Pair)
    (vec_PutativeMatches geometric_inliers : IndMatches)
    (view_I view_J : View)
    (hI : sfm_data.views pairIndex.1 = some view_I)
    (hJ : sfm_data.views pairIndex.2 = some view_J)
    (cam_I cam_J : IntrinsicBase Mat3)
    (hcI : camera_of sfm_data view_I = some cam_I)
    (hcJ : camera_of sfm_data view_J = some cam_J)
    (hpI : C.isPinhole cam_I.getType = true)
    (hpJ : C.isPinhole cam_J.getType = true) :
    ((Robust_estimation C self rng sfm_data regions_provider pairIndex
      vec_PutativeMatches geometric_inliers).outcome = Outcome.returned true ↔
      (5 / 2 : ℚ) * (C.MINIMUM_SAMPLES : ℚ) <
        ((estimate C self rng sfm_data regions_provider pairIndex
      vec_PutativeMatches view_I view_J cam_I cam_J).vec_inliers.length : ℚ)) ∧
    ((Robust_estimation C self rng sfm_data regions_provider pairIndex
      vec_PutativeMatches geometric_inliers).outcome = Outcome.returned false ↔
      ¬ (5 / 2 : ℚ) * (C.MINIMUM_SAMPLES : ℚ) <
        ((estimate C self rng sfm_data regions_provider pairIndex
      vec_PutativeMatches view_I view_J cam_I cam_J).vec_inliers.length : ℚ)) ∧
    (C.MINIMUM_SAMPLES = 3 →
      (((estimate C self rng sfm_data regions_provider pairIndex
      vec_PutativeMatches view_I view_J cam_I cam_J).vec_inliers.length = 6 ∨
        (estimate C self rng sfm_data regions_provider pairIndex
      vec_PutativeMatches view_I view_J cam_I cam_J).vec_inliers.length = 7) →
        (Robust_estimation C self rng sfm_data regions_provider pairIndex
      vec_PutativeMatches geometric_inliers).outcome = Outcome.returned false) ∧
      (((estimate C self rng sfm_data regions_provider pairIndex
      vec_PutativeMatches view_I view_J cam_I cam_J).vec_inliers.length = 8 ∨
        (estimate C self rng sfm_data regions_provider pairIndex
      vec_PutativeMatches view_I view_J cam_I cam_J).vec_inliers.length = 9) →
        (Robust_estimation C self rng sfm_data regions_provider pairIndex
      vec_PutativeMatches geometric_inliers).outcome = Outcome.returned true)) := by
  have key := Robust_estimation_of_gate_passed C self rng sfm_data regions_provider
    pairIndex vec_PutativeMatches geometric_inliers view_I view_J cam_I cam_J
    hI hJ hcI hcJ hpI hpJ
  have hiff := enough_inliers_iff C (estimate C self rng sfm_data regions_provider pairIndex
      vec_PutativeMatches view_I view_J cam_I cam_J).vec_inliers.length
  rw [key]
  by_cases he : enough_inliers C (estimate C self rng sfm_data regions_provider pairIndex
      vec_PutativeMatches view_I view_J cam_I cam_J).vec_inliers.length = true
  · have hq := hiff.mp he
    rw [if_pos he]
    refine ⟨⟨fun _ => hq, fun _ => rfl⟩, ⟨fun h => by simp at h, fun h => absurd hq h⟩, ?_⟩
    intro hM
    refine ⟨?_, fun _ => rfl⟩
    intro h
    exfalso
    unfold enough_inliers at he
    rw [decide_eq_true_iff] at he
    omega
  · have hq : ¬ _ := fun h => he (hiff.mpr h)
    rw [if_neg he]
    refine ⟨⟨fun h => by simp at h, fun h => absurd h hq⟩, ⟨fun _ => hq, fun _ => rfl⟩, ?_⟩
    intro hM
    refine ⟨fun _ => rfl, ?_⟩
    intro h
    exfalso
    unfold enough_inliers at he
    rw [decide_eq_true_iff] at he
    omega

/-- C2. For a pair whose two views exist, if the intrinsic id of either view
is not registered, or either resolved camera has a type that is not a pinhole
variant, `Robust_estimation` returns `false` and the output sequence is empty,
whatever the putative matches and the prior content of the output. -/
theorem Robust_estimation_camera_gate (C : Collaborators D Mat Mat3 Kernel Provider Rng)
    (self : GeometricFilter_EOMatrix_RA D Mat3) (rng : Rng)
    (sfm_data : SfM_Data Mat3) (regions_provider : Provider) (pairIndex : Pair)
    (vec_PutativeMatches geometric_inliers : IndMatches)
    (view_I view_J : View)
    (hI : sfm_data.views pairIndex.1 = some view_I)
    (hJ : sfm_data.views pairIndex.2 = some view_J)
    (hbad : sfm_data.intrinsics view_I.id_intrinsic = none ∨
      sfm_data.intrinsics view_J.id_intrinsic = none ∨
      (∃ cam, camera_of sfm_data view_I = some cam ∧ C.isPinhole cam.getType = false) ∨
      (∃ cam, camera_of sfm_data view_J = some cam ∧ C.isPinhole cam.getType = false)) :
    (Robust_estimation C self rng sfm_data regions_provider pairIndex
      vec_PutativeMatches geometric_inliers).outcome = Outcome.returned false ∧
    (Robust_estimation C self rng sfm_data regions_provider pairIndex
      vec_PutativeMatches geometric_inliers).geometric_inliers = [] := by
  have key := Robust_estimation_of_gate_failed C self rng sfm_data regions_provider
    pairIndex vec_PutativeMatches geometric_inliers view_I view_J hI hJ (by
      intro a b ha hb
      rcases hbad with h | h | ⟨c, hc, hp⟩ | ⟨c, hc, hp⟩
      · simp [camera_of, h] at ha
      · simp [camera_of, h] at hb
      · rw [hc] at ha
        cases ha
        exact Or.inl hp
      · rw [hc] at hb
        cases hb
        exact Or.inr hp)
  rw [key]
  exact ⟨rfl, rfl⟩

/-- C3. In an accepted call (return value `true`) whose reported inlier
indices are pairwise distinct positions of the putative-match sequence, every
entry of `geometric_inliers` is an entry of the putative matches and
`geometric_inliers` is no longer than the putative matches. -/
theorem Robust_estimation_accepted_entries (C : Collaborators D Mat Mat3 Kernel Provider Rng)
    (self : GeometricFilter_EOMatrix_RA D Mat3) (rng : Rng)
    (sfm_data : SfM_Data Mat3) (regions_provider : Provider) (pairIndex : Pair)
    (vec_PutativeMatches geometric_inliers : IndMatches)
    (view_I view_J : View)
    (hI : sfm_data.views pairIndex.1 = some view_I)
    (hJ : sfm_data.views pairIndex.2 = some view_J)
    (cam_I cam_J : IntrinsicBase Mat3)
    (hcI : camera_of sfm_data view_I = some cam_I)
    (hcJ : camera_of sfm_data view_J = some cam_J)
    (hacc : (Robust_estimation C self rng sfm_data regions_provider pairIndex
      vec_PutativeMatches geometric_inliers).outcome = Outcome.returned true)
    (hnodup : (estimate C self rng sfm_data regions_provider pairIndex
      vec_PutativeMatches view_I view_J cam_I cam_J).vec_inliers.Nodup)
    (hpos : ∀ i ∈ (estimate C self rng sfm_data regions_provider pairIndex
      vec_PutativeMatches view_I view_J cam_I cam_J).vec_inliers, i < vec_PutativeMatches.length) :
    (∀ m ∈ (Robust_estimation C self rng sfm_data regions_provider pairIndex
      vec_PutativeMatches geometric_inliers).geometric_inliers, m ∈ vec_PutativeMatches) ∧
    (Robust_estimation C self rng sfm_data regions_provider pairIndex
      vec_PutativeMatches geometric_inliers).geometric_inliers.length ≤ vec_PutativeMatches.length := by
  have key := (Robust_estimation_of_accepted C self rng sfm_data regions_provider
    pairIndex vec_PutativeMatches geometric_inliers view_I view_J cam_I cam_J
    hI hJ hcI hcJ hacc).2
  rw [key]
  refine ⟨map_index_unchecked_mem C vec_PutativeMatches _ hpos, ?_⟩
  rw [List.length_map]
  exact length_le_of_nodup_of_lt _ _ hnodup hpos

/-- C4 (amended). For every call of `Robust_estimation`: a call that does not
return `true` leaves `geometric_inliers` empty; a call that returns `true` has
resolved both views and both cameras and outputs the putative matches read at
the reported inlier indices, in the order of the index list; hence the output
is a subsequence of the putative matches whenever the indices reported in an
accepted call are strictly increasing positions of the putative matches; and
when the putative matches are pairwise distinct and the reported indices are
positions of them, the output of an accepted call is a subsequence exactly
when the indices are strictly increasing. -/
theorem Robust_estimation_output_sublist (C : Collaborators D Mat Mat3 Kernel Provider Rng)
    (self : GeometricFilter_EOMatrix_RA D Mat3) (rng : Rng)
    (sfm_data : SfM_Data Mat3) (regions_provider : Provider) (pairIndex : Pair)
    (vec_PutativeMatches geometric_inliers : IndMatches) :
    ((Robust_estimation C self rng sfm_data regions_provider pairIndex
      vec_PutativeMatches geometric_inliers).outcome ≠ Outcome.returned true →
      (Robust_estimation C self rng sfm_data regions_provider pairIndex
      vec_PutativeMatches geometric_inliers).geometric_inliers = []) ∧
    ((Robust_estimation C self rng sfm_data regions_provider pairIndex
      vec_PutativeMatches geometric_inliers).outcome = Outcome.returned true →
      ∃ (view_I view_J : View) (cam_I cam_J : IntrinsicBase Mat3),
        sfm_data.views pairIndex.1 = some view_I ∧
        sfm_data.views pairIndex.2 = some view_J ∧
        camera_of sfm_data view_I = some cam_I ∧
        camera_of sfm_data view_J = some cam_J) ∧
    (∀ (view_I view_J : View) (cam_I cam_J : IntrinsicBase Mat3),
      sfm_data.views pairIndex.1 = some view_I →
      sfm_data.views pairIndex.2 = some view_J →
      camera_of sfm_data view_I = some cam_I →
      camera_of sfm_data view_J = some cam_J →
      (Robust_estimation C self rng sfm_data regions_provider pairIndex
      vec_PutativeMatches geometric_inliers).outcome = Outcome.returned true →
      (Robust_estimation C self rng sfm_data regions_provider pairIndex
      vec_PutativeMatches geometric_inliers).geometric_inliers =
        (estimate C self rng sfm_data regions_provider pairIndex
        vec_PutativeMatches view_I view_J cam_I cam_J).vec_inliers.map
          (index_unchecked C vec_PutativeMatches)) ∧
    (((Robust_estimation C self rng sfm_data regions_provider pairIndex
      vec_PutativeMatches geometric_inliers).outcome = Outcome.returned true →
      ∀ (view_I view_J : View) (cam_I cam_J : IntrinsicBase Mat3),
      sfm_data.views pairIndex.1 = some view_I →
      sfm_data.views pairIndex.2 = some view_J →
      camera_of sfm_data view_I = some cam_I →
      camera_of sfm_data view_J = some cam_J →
      (estimate C self rng sfm_data regions_provider pairIndex
        vec_PutativeMatches view_I view_J cam_I cam_J).vec_inliers.Pairwise (· < ·) ∧
      ∀ i ∈ (estimate C self rng sfm_data regions_provider pairIndex
        vec_PutativeMatches view_I view_J cam_I cam_J).vec_inliers, i < vec_PutativeMatches.length) →
      List.Sublist (Robust_estimation C self rng sfm_data regions_provider pairIndex
      vec_PutativeMatches geometric_inliers).geometric_inliers vec_PutativeMatches) ∧
    (∀ (view_I view_J : View) (cam_I cam_J : IntrinsicBase Mat3),
      sfm_data.views pairIndex.1 = some view_I →
      sfm_data.views pairIndex.2 = some view_J →
      camera_of sfm_data view_I = some cam_I →
      camera_of sfm_data view_J = some cam_J →
      (Robust_estimation C self rng sfm_data regions_provider pairIndex
      vec_PutativeMatches geometric_inliers).outcome = Outcome.returned true →
      vec_PutativeMatches.Nodup →
      (∀ i ∈ (estimate C self rng sfm_data regions_provider pairIndex
        vec_PutativeMatches view_I view_J cam_I cam_J).vec_inliers, i < vec_PutativeMatches.length) →
      (List.Sublist (Robust_estimation C self rng sfm_data regions_provider pairIndex
      vec_PutativeMatches geometric_inliers).geometric_inliers vec_PutativeMatches ↔
        (estimate C self rng sfm_data regions_provider pairIndex
        vec_PutativeMatches view_I view_J cam_I cam_J).vec_inliers.Pairwise (· < ·))) := by
  have hmap : ∀ (view_I view_J : View) (cam_I cam_J : IntrinsicBase Mat3),
      sfm_data.views pairIndex.1 = some view_I →
      sfm_data.views pairIndex.2 = some view_J →
      camera_of sfm_data view_I = some cam_I →
      camera_of sfm_data view_J = some cam_J →
      (Robust_estimation C self rng sfm_data regions_provider pairIndex
      vec_PutativeMatches geometric_inliers).outcome = Outcome.returned true →
      (Robust_estimation C self rng sfm_data regions_provider pairIndex
      vec_PutativeMatches geometric_inliers).geometric_inliers =
        (estimate C self rng sfm_data regions_provider pairIndex
        vec_PutativeMatches view_I view_J cam_I cam_J).vec_inliers.map
          (index_unchecked C vec_PutativeMatches) :=
    fun view_I view_J cam_I cam_J hI hJ hcI hcJ hacc =>
      (Robust_estimation_of_accepted C self rng sfm_data regions_provider
        pairIndex vec_PutativeMatches geometric_inliers view_I view_J cam_I cam_J
        hI hJ hcI hcJ hacc).2
  refine ⟨?_, ?_, hmap, ?_, ?_⟩
  · exact geometric_inliers_nil_of_not_accepted C self rng sfm_data regions_provider
      pairIndex vec_PutativeMatches geometric_inliers
  · exact accepted_resolves C self rng sfm_data regions_provider pairIndex
      vec_PutativeMatches geometric_inliers
  · intro hinc
    by_cases hacc : (Robust_estimation C self rng sfm_data regions_provider pairIndex
      vec_PutativeMatches geometric_inliers).outcome = Outcome.returned true
    · obtain ⟨view_I, view_J, cam_I, cam_J, hI, hJ, hcI, hcJ⟩ :=
        accepted_resolves C self rng sfm_data regions_provider pairIndex
          vec_PutativeMatches geometric_inliers hacc
      rw [hmap view_I view_J cam_I cam_J hI hJ hcI hcJ hacc]
      obtain ⟨h1, h2⟩ := hinc hacc view_I view_J cam_I cam_J hI hJ hcI hcJ
      exact map_index_unchecked_sublist C vec_PutativeMatches _ h1 h2
    · rw [geometric_inliers_nil_of_not_accepted C self rng sfm_data regions_provider
        pairIndex vec_PutativeMatches geometric_inliers hacc]
      exact List.nil_sublist _
  · intro view_I view_J cam_I cam_J hI hJ hcI hcJ hacc hnd hpos
    rw [hmap view_I view_J cam_I cam_J hI hJ hcI hcJ hacc]
    exact ⟨pairwise_lt_of_map_index_unchecked_sublist C vec_PutativeMatches _ hnd hpos,
      fun hpw => map_index_unchecked_sublist C vec_PutativeMatches _ hpw hpos⟩

/-- C5 (amended). A call that passes the camera gate and whose inlier count
does not exceed `2.5` times `MINIMUM_SAMPLES` returns `false` and leaves the
output sequence empty, whatever its prior content; the output equals the prior
content exactly when that was empty. -/
theorem Robust_estimation_rejected_output (C : Collaborators D Mat Mat3 Kernel Provider Rng)
    (self : GeometricFilter_EOMatrix_RA D Mat3) (rng : Rng)
    (sfm_data : SfM_Data Mat3) (regions_provider : Provider) (pairIndex : Pair)
    (vec_PutativeMatches geometric_inliers : IndMatches)
    (view_I view_J : View)
    (hI : sfm_data.views pairIndex.1 = some view_I)
    (hJ : sfm_data.views pairIndex.2 = some view_J)
    (cam_I cam_J : IntrinsicBase Mat3)
    (hcI : camera_of sfm_data view_I = some cam_I)
    (hcJ : camera_of sfm_data view_J = some cam_J)
    (hpI : C.isPinhole cam_I.getType = true)
    (hpJ : C.isPinhole cam_J.getType = true)
    (hfloor : ¬ (5 / 2 : ℚ) * (C.MINIMUM_SAMPLES : ℚ) <
      ((estimate C self rng sfm_data regions_provider pairIndex
      vec_PutativeMatches view_I view_J cam_I cam_J).vec_inliers.length : ℚ)) :
    (Robust_estimation C self rng sfm_data regions_provider pairIndex
      vec_PutativeMatches geometric_inliers).outcome = Outcome.returned false ∧
    (Robust_estimation C self rng sfm_data regions_provider pairIndex
      vec_PutativeMatches geometric_inliers).geometric_inliers = [] ∧
    ((Robust_estimation C self rng sfm_data regions_provider pairIndex
      vec_PutativeMatches geometric_inliers).geometric_inliers = geometric_inliers ↔ geometric_inliers = []) := by
  have key := Robust_estimation_of_gate_passed C self rng sfm_data regions_provider
    pairIndex vec_PutativeMatches geometric_inliers view_I view_J cam_I cam_J
    hI hJ hcI hcJ hpI hpJ
  have he : ¬ enough_inliers C (estimate C self rng sfm_data regions_provider pairIndex
      vec_PutativeMatches view_I view_J cam_I cam_J).vec_inliers.length = true :=
    fun h => hfloor ((enough_inliers_iff C _).mp h)
  rw [key, if_neg he]
  exact ⟨rfl, rfl, ⟨fun h => h.symm, fun h => h.symm⟩⟩

/-- C6. In an accepted call whose reported inlier indices are all positions of
the putative-match sequence, `geometric_inliers` has as many entries as the
inlier index list and its `k`-th entry is the putative match at the `k`-th
reported index, whatever the prior content of the output. -/
theorem Robust_estimation_accepted_materialises (C : Collaborators D Mat Mat3 Kernel Provider Rng)
    (self : GeometricFilter_EOMatrix_RA D Mat3) (rng : Rng)
    (sfm_data : SfM_Data Mat3) (regions_provider : Provider) (pairIndex : Pair)
    (vec_PutativeMatches geometric_inliers : IndMatches)
    (view_I view_J : View)
    (hI : sfm_data.views pairIndex.1 = some view_I)
    (hJ : sfm_data.views pairIndex.2 = some view_J)
    (cam_I cam_J : IntrinsicBase Mat3)
    (hcI : camera_of sfm_data view_I = some cam_I)
    (hcJ : camera_of sfm_data view_J = some cam_J)
    (hacc : (Robust_estimation C self rng sfm_data regions_provider pairIndex
      vec_PutativeMatches geometric_inliers).outcome = Outcome.returned true)
    (hpos : ∀ i ∈ (estimate C self rng sfm_data regions_provider pairIndex
      vec_PutativeMatches view_I view_J cam_I cam_J).vec_inliers, i < vec_PutativeMatches.length) :
    (Robust_estimation C self rng sfm_data regions_provider pairIndex
      vec_PutativeMatches geometric_inliers).geometric_inliers.length =
      (estimate C self rng sfm_data regions_provider pairIndex
      vec_PutativeMatches view_I view_J cam_I cam_J).vec_inliers.length ∧
    ∀ k i : Nat, (estimate C self rng sfm_data regions_provider pairIndex
      vec_PutativeMatches view_I view_J cam_I cam_J).vec_inliers[k]? = some i →
      ∃ m, vec_PutativeMatches[i]? = some m ∧
        (Robust_estimation C self rng sfm_data regions_provider pairIndex
      vec_PutativeMatches geometric_inliers).geometric_inliers[k]? = some m := by
  have key := (Robust_estimation_of_accepted C self rng sfm_data regions_provider
    pairIndex vec_PutativeMatches geometric_inliers view_I view_J cam_I cam_J
    hI hJ hcI hcJ hacc).2
  rw [key]
  refine ⟨List.length_map _ _, ?_⟩
  intro k i hk
  refine ⟨index_unchecked C vec_PutativeMatches i, ?_, ?_⟩
  · exact index_unchecked_of_lt C vec_PutativeMatches i (hpos i (List.getElem?_mem hk))
  · rw [List.getElem?_map, hk]
    rfl

/-- C7. `Geometry_guided_matching` returns `false` and leaves the matches
sequence, the stored model and the precision bound as they were. -/
theorem Geometry_guided_matching_declines
    (self : GeometricFilter_EOMatrix_RA D Mat3)
    (sfm_data : SfM_Data Mat3) (regions_provider : Provider) (pairIndex : Pair)
    (dDistanceRatio : D) (matches_ : IndMatches) :
    (Geometry_guided_matching self sfm_data regions_provider pairIndex dDistanceRatio
      matches_).1 = false ∧
    (Geometry_guided_matching self sfm_data regions_provider pairIndex dDistanceRatio
      matches_).2.2 = matches_ ∧
    (Geometry_guided_matching self sfm_data regions_provider pairIndex dDistanceRatio
      matches_).2.1.m_E = self.m_E ∧
    (Geometry_guided_matching self sfm_data regions_provider pairIndex dDistanceRatio
      matches_).2.1.m_dPrecision = self.m_dPrecision :=
  ⟨rfl, rfl, rfl, rfl⟩

/-- C8. With both views present and an invalid camera setup (an intrinsic id
that is not registered, or a resolved camera whose type is not a pinhole
variant), a first call returns `false` with the estimator and the random
source as they were, a second call made from the state the first one left
does the same, and the result is the same whatever correspondence
materialiser, kernel and robust estimator are plugged in. -/
theorem Robust_estimation_invalid_cameras_idempotent (C : Collaborators D Mat Mat3 Kernel Provider Rng)
    (self : GeometricFilter_EOMatrix_RA D Mat3) (rng : Rng)
    (sfm_data : SfM_Data Mat3) (regions_provider : Provider) (pairIndex : Pair)
    (vec_PutativeMatches geometric_inliers : IndMatches)
    (view_I view_J : View)
    (hI : sfm_data.views pairIndex.1 = some view_I)
    (hJ : sfm_data.views pairIndex.2 = some view_J)
    (hbad : sfm_data.intrinsics view_I.id_intrinsic = none ∨
      sfm_data.intrinsics view_J.id_intrinsic = none ∨
      (∃ cam, camera_of sfm_data view_I = some cam ∧ C.isPinhole cam.getType = false) ∨
      (∃ cam, camera_of sfm_data view_J = some cam ∧ C.isPinhole cam.getType = false)) :
    Robust_estimation C self rng sfm_data regions_provider pairIndex
      vec_PutativeMatches geometric_inliers = ⟨Outcome.returned false, self, [], rng⟩ ∧
    (∀ again : IndMatches,
      Robust_estimation C
        (Robust_estimation C self rng sfm_data regions_provider pairIndex
      vec_PutativeMatches geometric_inliers).self
        (Robust_estimation C self rng sfm_data regions_provider pairIndex
      vec_PutativeMatches geometric_inliers).rng
        sfm_data regions_provider pairIndex vec_PutativeMatches again =
      ⟨Outcome.returned false, self, [], rng⟩) ∧
    (∀ C2 : Collaborators D Mat Mat3 Kernel Provider Rng, C2.isPinhole = C.isPinhole →
      Robust_estimation C2 self rng sfm_data regions_provider pairIndex
        vec_PutativeMatches geometric_inliers =
      ⟨Outcome.returned false, self, [], rng⟩) := by
  have hgate : ∀ C2 : Collaborators D Mat Mat3 Kernel Provider Rng,
      C2.isPinhole = C.isPinhole → ∀ cam_I cam_J,
      camera_of sfm_data view_I = some cam_I → camera_of sfm_data view_J = some cam_J →
      C2.isPinhole cam_I.getType = false ∨ C2.isPinhole cam_J.getType = false := by
    intro C2 hC2 a b ha hb
    rw [hC2]
    rcases hbad with h | h | ⟨c, hc, hp⟩ | ⟨c, hc, hp⟩
    · simp [camera_of, h] at ha
    · simp [camera_of, h] at hb
    · rw [hc] at ha
      cases ha
      exact Or.inl hp
    · rw [hc] at hb
      cases hb
      exact Or.inr hp
  have key : ∀ g : IndMatches, Robust_estimation C self rng sfm_data regions_provider
      pairIndex vec_PutativeMatches g = ⟨Outcome.returned false, self, [], rng⟩ :=
    fun g => Robust_estimation_of_gate_failed C self rng sfm_data regions_provider
      pairIndex vec_PutativeMatches g view_I view_J hI hJ (hgate C rfl)
  refine ⟨key _, ?_, ?_⟩
  · intro again
    rw [key geometric_inliers]
    exact key again
  · intro C2 hC2
    exact Robust_estimation_of_gate_failed C2 self rng sfm_data regions_provider
      pairIndex vec_PutativeMatches geometric_inliers view_I view_J hI hJ (hgate C2 hC2)

/-- C10. When a view identifier of the pair is not a key of the view map,
`Robust_estimation` does not return `false`: it ends by the out-of-range
exception of the checked lookup, with the output sequence already cleared and
the estimator untouched, and this whatever the camera registry holds and
whatever the pinhole test answers. -/
theorem Robust_estimation_missing_view_throws (C : Collaborators D Mat Mat3 Kernel Provider Rng)
    (self : GeometricFilter_EOMatrix_RA D Mat3) (rng : Rng)
    (sfm_data : SfM_Data Mat3) (regions_provider : Provider) (pairIndex : Pair)
    (vec_PutativeMatches geometric_inliers : IndMatches)
    (hmiss : sfm_data.views pairIndex.1 = none ∨ sfm_data.views pairIndex.2 = none) :
    (Robust_estimation C self rng sfm_data regions_provider pairIndex
      vec_PutativeMatches geometric_inliers).outcome = Outcome.out_of_range ∧
    (Robust_estimation C self rng sfm_data regions_provider pairIndex
      vec_PutativeMatches geometric_inliers).outcome ≠ Outcome.returned false ∧
    (Robust_estimation C self rng sfm_data regions_provider pairIndex
      vec_PutativeMatches geometric_inliers).geometric_inliers = [] ∧
    (Robust_estimation C self rng sfm_data regions_provider pairIndex
      vec_PutativeMatches geometric_inliers).self = self ∧
    (∀ (isPinhole2 : EINTRINSIC → Bool)
        (intrinsics2 : IndexT → Option (Option (IntrinsicBase Mat3))),
      Robust_estimation { C with isPinhole := isPinhole2 } self rng
        { sfm_data with intrinsics := intrinsics2 } regions_provider pairIndex
        vec_PutativeMatches geometric_inliers =
      ⟨Outcome.out_of_range, self, [], rng⟩) := by
  rw [Robust_estimation_of_missing_view C self rng sfm_data regions_provider pairIndex
    vec_PutativeMatches geometric_inliers hmiss]
  refine ⟨rfl, by simp, rfl, rfl, ?_⟩
  intro isPinhole2 intrinsics2
  exact Robust_estimation_of_missing_view _ self rng _ regions_provider pairIndex
    vec_PutativeMatches geometric_inliers hmiss

end

end openMVG.matching_image_collection

/-! ## The claims on concrete calls -/

namespace openMVG.matching_image_collection
open matching sfm cameras robust

/-- C1 on a call with eight matches, all reported as inliers: the hypotheses
hold and the call is accepted. -/
theorem Robust_estimation_accepts_iff_above_floor_witness :
    demo_sfm_data.views demo_pair.1 = some demo_view_0 ∧
    demo_sfm_data.views demo_pair.2 = some demo_view_1 ∧
    camera_of demo_sfm_data demo_view_0 = some demo_pinhole ∧
    camera_of demo_sfm_data demo_view_1 = some demo_pinhole ∧
    (demo_collaborators List.range).isPinhole demo_pinhole.getType = true ∧
    (demo_collaborators List.range).isPinhole demo_pinhole.getType = true ∧
    ((Robust_estimation (demo_collaborators List.range) demo_filter () demo_sfm_data () demo_pair
      (demo_matches 8) []).outcome = Outcome.returned true ↔
      (5 / 2 : ℚ) * ((demo_collaborators List.range).MINIMUM_SAMPLES : ℚ) <
        ((estimate (demo_collaborators List.range) demo_filter () demo_sfm_data () demo_pair
      (demo_matches 8) demo_view_0 demo_view_1 demo_pinhole demo_pinhole).vec_inliers.length : ℚ)) ∧
    ((Robust_estimation (demo_collaborators List.range) demo_filter () demo_sfm_data () demo_pair
      (demo_matches 8) []).outcome = Outcome.returned false ↔
      ¬ (5 / 2 : ℚ) * ((demo_collaborators List.range).MINIMUM_SAMPLES : ℚ) <
        ((estimate (demo_collaborators List.range) demo_filter () demo_sfm_data () demo_pair
      (demo_matches 8) demo_view_0 demo_view_1 demo_pinhole demo_pinhole).vec_inliers.length : ℚ)) ∧
    ((demo_collaborators List.range).MINIMUM_SAMPLES = 3 →
      (((estimate (demo_collaborators List.range) demo_filter () demo_sfm_data () demo_pair
      (demo_matches 8) demo_view_0 demo_view_1 demo_pinhole demo_pinhole).vec_inliers.length = 6 ∨
        (estimate (demo_collaborators List.range) demo_filter () demo_sfm_data () demo_pair
      (demo_matches 8) demo_view_0 demo_view_1 demo_pinhole demo_pinhole).vec_inliers.length = 7) →
        (Robust_estimation (demo_collaborators List.range) demo_filter () demo_sfm_data () demo_pair
      (demo_matches 8) []).outcome = Outcome.returned false) ∧
      (((estimate (demo_collaborators List.range) demo_filter () demo_sfm_data () demo_pair
      (demo_matches 8) demo_view_0 demo_view_1 demo_pinhole demo_pinhole).vec_inliers.length = 8 ∨
        (estimate (demo_collaborators List.range) demo_filter () demo_sfm_data () demo_pair
      (demo_matches 8) demo_view_0 demo_view_1 demo_pinhole demo_pinhole).vec_inliers.length = 9) →
        (Robust_estimation (demo_collaborators List.range) demo_filter () demo_sfm_data () demo_pair
      (demo_matches 8) []).outcome = Outcome.returned true)) :=
  ⟨rfl, rfl, rfl, rfl, rfl, rfl,
    Robust_estimation_accepts_iff_above_floor (demo_collaborators List.range) demo_filter () demo_sfm_data () demo_pair
      (demo_matches 8) []
      demo_view_0 demo_view_1 rfl rfl demo_pinhole demo_pinhole rfl rfl rfl rfl⟩

/-- C2 on a pair whose second view names an intrinsic that is not registered. -/
theorem Robust_estimation_camera_gate_witness :
    demo_sfm_data.views demo_pair_unregistered.1 = some demo_view_0 ∧
    demo_sfm_data.views demo_pair_unregistered.2 = some demo_view_2 ∧
    (demo_sfm_data.intrinsics demo_view_0.id_intrinsic = none ∨
      demo_sfm_data.intrinsics demo_view_2.id_intrinsic = none ∨
      (∃ cam, camera_of demo_sfm_data demo_view_0 = some cam ∧ (demo_collaborators List.range).isPinhole cam.getType = false) ∨
      (∃ cam, camera_of demo_sfm_data demo_view_2 = some cam ∧ (demo_collaborators List.range).isPinhole cam.getType = false)) ∧
    (Robust_estimation (demo_collaborators List.range) demo_filter () demo_sfm_data () demo_pair_unregistered
      (demo_matches 8) demo_prior).outcome = Outcome.returned false ∧
    (Robust_estimation (demo_collaborators List.range) demo_filter () demo_sfm_data () demo_pair_unregistered
      (demo_matches 8) demo_prior).geometric_inliers = [] :=
  ⟨rfl, rfl, Or.inr (Or.inl rfl),
    Robust_estimation_camera_gate (demo_collaborators List.range) demo_filter () demo_sfm_data ()
      demo_pair_unregistered (demo_matches 8) demo_prior
      demo_view_0 demo_view_2 rfl rfl (Or.inr (Or.inl rfl))⟩

/-- C3 on an accepted call whose eight inlier indices come in descending order. -/
theorem Robust_estimation_accepted_entries_witness :
    demo_sfm_data.views demo_pair.1 = some demo_view_0 ∧
    demo_sfm_data.views demo_pair.2 = some demo_view_1 ∧
    camera_of demo_sfm_data demo_view_0 = some demo_pinhole ∧
    camera_of demo_sfm_data demo_view_1 = some demo_pinhole ∧
    (Robust_estimation (demo_collaborators demo_descending) demo_filter () demo_sfm_data () demo_pair
      (demo_matches 8) demo_prior).outcome = Outcome.returned true ∧
    (estimate (demo_collaborators demo_descending) demo_filter () demo_sfm_data () demo_pair
      (demo_matches 8) demo_view_0 demo_view_1 demo_pinhole demo_pinhole).vec_inliers.Nodup ∧
    (∀ i ∈ (estimate (demo_collaborators demo_descending) demo_filter () demo_sfm_data () demo_pair
      (demo_matches 8) demo_view_0 demo_view_1 demo_pinhole demo_pinhole).vec_inliers, i < (demo_matches 8).length) ∧
    (∀ m ∈ (Robust_estimation (demo_collaborators demo_descending) demo_filter () demo_sfm_data () demo_pair
      (demo_matches 8) demo_prior).geometric_inliers, m ∈ (demo_matches 8)) ∧
    (Robust_estimation (demo_collaborators demo_descending) demo_filter () demo_sfm_data () demo_pair
      (demo_matches 8) demo_prior).geometric_inliers.length ≤ (demo_matches 8).length :=
  ⟨rfl, rfl, rfl, rfl, by decide, by decide, by decide,
    Robust_estimation_accepted_entries (demo_collaborators demo_descending) demo_filter () demo_sfm_data () demo_pair
      (demo_matches 8) demo_prior
      demo_view_0 demo_view_1 rfl rfl demo_pinhole demo_pinhole rfl rfl
      (by decide) (by decide) (by decide)⟩

/-- C4 fails as stated: an accepted call whose inlier indices come in
descending order outputs the putative matches reversed, which is not a
subsequence of them. -/
theorem Robust_estimation_output_not_sublist :
    (Robust_estimation (demo_collaborators demo_descending) demo_filter () demo_sfm_data () demo_pair
      (demo_matches 8) demo_prior).outcome = Outcome.returned true ∧
    (Robust_estimation (demo_collaborators demo_descending) demo_filter () demo_sfm_data () demo_pair
      (demo_matches 8) demo_prior).geometric_inliers = (demo_matches 8).reverse ∧
    ¬ List.Sublist (Robust_estimation (demo_collaborators demo_descending) demo_filter () demo_sfm_data () demo_pair
      (demo_matches 8) demo_prior).geometric_inliers (demo_matches 8) := by
  decide

/-- C4 (amended) on two calls. An accepted call whose nine inlier indices come
in increasing order outputs a subsequence. A call stopped at the camera gate
(spherical camera), whose estimator would report descending indices, never
runs the estimator: its output is empty, hence a subsequence. -/
theorem Robust_estimation_output_sublist_witness :
    (Robust_estimation (demo_collaborators List.range) demo_filter () demo_sfm_data () demo_pair
      (demo_matches 9) demo_prior).outcome = Outcome.returned true ∧
    ((Robust_estimation (demo_collaborators List.range) demo_filter () demo_sfm_data () demo_pair
      (demo_matches 9) demo_prior).outcome = Outcome.returned true →
      ∀ (view_I view_J : View) (cam_I cam_J : IntrinsicBase Unit),
      demo_sfm_data.views demo_pair.1 = some view_I →
      demo_sfm_data.views demo_pair.2 = some view_J →
      camera_of demo_sfm_data view_I = some cam_I →
      camera_of demo_sfm_data view_J = some cam_J →
      (estimate (demo_collaborators List.range) demo_filter () demo_sfm_data () demo_pair
        (demo_matches 9) view_I view_J cam_I cam_J).vec_inliers.Pairwise (· < ·) ∧
      ∀ i ∈ (estimate (demo_collaborators List.range) demo_filter () demo_sfm_data () demo_pair
        (demo_matches 9) view_I view_J cam_I cam_J).vec_inliers, i < (demo_matches 9).length) ∧
    List.Sublist (Robust_estimation (demo_collaborators List.range) demo_filter () demo_sfm_data () demo_pair
      (demo_matches 9) demo_prior).geometric_inliers (demo_matches 9) ∧
    (Robust_estimation (demo_collaborators demo_descending) demo_filter () demo_sfm_data ()
      demo_pair_spherical (demo_matches 8) demo_prior).outcome ≠ Outcome.returned true ∧
    ((Robust_estimation (demo_collaborators demo_descending) demo_filter () demo_sfm_data ()
      demo_pair_spherical (demo_matches 8) demo_prior).outcome = Outcome.returned true →
      ∀ (view_I view_J : View) (cam_I cam_J : IntrinsicBase Unit),
      demo_sfm_data.views demo_pair_spherical.1 = some view_I →
      demo_sfm_data.views demo_pair_spherical.2 = some view_J →
      camera_of demo_sfm_data view_I = some cam_I →
      camera_of demo_sfm_data view_J = some cam_J →
      (estimate (demo_collaborators demo_descending) demo_filter () demo_sfm_data ()
        demo_pair_spherical (demo_matches 8) view_I view_J cam_I cam_J).vec_inliers.Pairwise (· < ·) ∧
      ∀ i ∈ (estimate (demo_collaborators demo_descending) demo_filter () demo_sfm_data ()
        demo_pair_spherical (demo_matches 8) view_I view_J cam_I cam_J).vec_inliers, i < (demo_matches 8).length) ∧
    (Robust_estimation (demo_collaborators demo_descending) demo_filter () demo_sfm_data ()
      demo_pair_spherical (demo_matches 8) demo_prior).geometric_inliers = [] ∧
    List.Sublist (Robust_estimation (demo_collaborators demo_descending) demo_filter () demo_sfm_data ()
      demo_pair_spherical (demo_matches 8) demo_prior).geometric_inliers (demo_matches 8) :=
  have hinc : ((Robust_estimation (demo_collaborators List.range) demo_filter () demo_sfm_data () demo_pair
      (demo_matches 9) demo_prior).outcome = Outcome.returned true →
      ∀ (view_I view_J : View) (cam_I cam_J : IntrinsicBase Unit),
      demo_sfm_data.views demo_pair.1 = some view_I →
      demo_sfm_data.views demo_pair.2 = some view_J →
      camera_of demo_sfm_data view_I = some cam_I →
      camera_of demo_sfm_data view_J = some cam_J →
      (estimate (demo_collaborators List.range) demo_filter () demo_sfm_data () demo_pair
        (demo_matches 9) view_I view_J cam_I cam_J).vec_inliers.Pairwise (· < ·) ∧
      ∀ i ∈ (estimate (demo_collaborators List.range) demo_filter () demo_sfm_data () demo_pair
        (demo_matches 9) view_I view_J cam_I cam_J).vec_inliers, i < (demo_matches 9).length) := by
    intro _ view_I view_J cam_I cam_J _ _ _ _
    change List.Pairwise (· < ·) (List.range 9) ∧ ∀ i ∈ List.range 9, i < (demo_matches 9).length
    decide
  have hrej : (Robust_estimation (demo_collaborators demo_descending) demo_filter () demo_sfm_data ()
      demo_pair_spherical (demo_matches 8) demo_prior).outcome ≠ Outcome.returned true := by
    decide
  have hvac : ((Robust_estimation (demo_collaborators demo_descending) demo_filter () demo_sfm_data ()
      demo_pair_spherical (demo_matches 8) demo_prior).outcome = Outcome.returned true →
      ∀ (view_I view_J : View) (cam_I cam_J : IntrinsicBase Unit),
      demo_sfm_data.views demo_pair_spherical.1 = some view_I →
      demo_sfm_data.views demo_pair_spherical.2 = some view_J →
      camera_of demo_sfm_data view_I = some cam_I →
      camera_of demo_sfm_data view_J = some cam_J →
      (estimate (demo_collaborators demo_descending) demo_filter () demo_sfm_data ()
        demo_pair_spherical (demo_matches 8) view_I view_J cam_I cam_J).vec_inliers.Pairwise (· < ·) ∧
      ∀ i ∈ (estimate (demo_collaborators demo_descending) demo_filter () demo_sfm_data ()
        demo_pair_spherical (demo_matches 8) view_I view_J cam_I cam_J).vec_inliers, i < (demo_matches 8).length) :=
    fun hacc => absurd hacc hrej
  ⟨by decide, hinc,
    (Robust_estimation_output_sublist (demo_collaborators List.range) demo_filter () demo_sfm_data () demo_pair
      (demo_matches 9) demo_prior).2.2.2.1 hinc,
    hrej, hvac,
    (Robust_estimation_output_sublist (demo_collaborators demo_descending) demo_filter () demo_sfm_data ()
      demo_pair_spherical (demo_matches 8) demo_prior).1 hrej,
    (Robust_estimation_output_sublist (demo_collaborators demo_descending) demo_filter () demo_sfm_data ()
      demo_pair_spherical (demo_matches 8) demo_prior).2.2.2.1 hvac⟩

/-- C5 fails as stated: a call rejected at the floor with seven inliers
returns `false` and has emptied an output sequence that held one match. -/
theorem Robust_estimation_rejected_output_mutated :
    (estimate (demo_collaborators List.range) demo_filter () demo_sfm_data () demo_pair
      (demo_matches 7) demo_view_0 demo_view_1 demo_pinhole demo_pinhole).vec_inliers.length = 7 ∧
    (Robust_estimation (demo_collaborators List.range) demo_filter () demo_sfm_data () demo_pair
      (demo_matches 7) demo_prior).outcome = Outcome.returned false ∧
    (Robust_estimation (demo_collaborators List.range) demo_filter () demo_sfm_data () demo_pair
      (demo_matches 7) demo_prior).geometric_inliers ≠ demo_prior := by
  decide

/-- C5 (amended) on a call rejected at the floor with six inliers. -/
theorem Robust_estimation_rejected_output_witness :
    demo_sfm_data.views demo_pair.1 = some demo_view_0 ∧
    demo_sfm_data.views demo_pair.2 = some demo_view_1 ∧
    camera_of demo_sfm_data demo_view_0 = some demo_pinhole ∧
    camera_of demo_sfm_data demo_view_1 = some demo_pinhole ∧
    (demo_collaborators List.range).isPinhole demo_pinhole.getType = true ∧
    (demo_collaborators List.range).isPinhole demo_pinhole.getType = true ∧
    ¬ (5 / 2 : ℚ) * ((demo_collaborators List.range).MINIMUM_SAMPLES : ℚ) <
      ((estimate (demo_collaborators List.range) demo_filter () demo_sfm_data () demo_pair
      (demo_matches 6) demo_view_0 demo_view_1 demo_pinhole demo_pinhole).vec_inliers.length : ℚ) ∧
    (Robust_estimation (demo_collaborators List.range) demo_filter () demo_sfm_data () demo_pair
      (demo_matches 6) demo_prior).outcome = Outcome.returned false ∧
    (Robust_estimation (demo_collaborators List.range) demo_filter () demo_sfm_data () demo_pair
      (demo_matches 6) demo_prior).geometric_inliers = [] ∧
    ((Robust_estimation (demo_collaborators List.range) demo_filter () demo_sfm_data () demo_pair
      (demo_matches 6) demo_prior).geometric_inliers = demo_prior ↔ demo_prior = []) :=
  have hfloor : ¬ (5 / 2 : ℚ) * ((demo_collaborators List.range).MINIMUM_SAMPLES : ℚ) <
      ((estimate (demo_collaborators List.range) demo_filter () demo_sfm_data () demo_pair
      (demo_matches 6) demo_view_0 demo_view_1 demo_pinhole demo_pinhole).vec_inliers.length : ℚ) :=
    fun h => absurd ((enough_inliers_iff _ _).mpr h) (by decide)
  ⟨rfl, rfl, rfl, rfl, rfl, rfl, hfloor,
    Robust_estimation_rejected_output (demo_collaborators List.range) demo_filter () demo_sfm_data () demo_pair
      (demo_matches 6) demo_prior
      demo_view_0 demo_view_1 rfl rfl demo_pinhole demo_pinhole rfl rfl rfl rfl hfloor⟩

/-- C6 on an accepted call whose inlier index list is out of order and
repeats an index. -/
theorem Robust_estimation_accepted_materialises_witness :
    demo_sfm_data.views demo_pair.1 = some demo_view_0 ∧
    demo_sfm_data.views demo_pair.2 = some demo_view_1 ∧
    camera_of demo_sfm_data demo_view_0 = some demo_pinhole ∧
    camera_of demo_sfm_data demo_view_1 = some demo_pinhole ∧
    (Robust_estimation (demo_collaborators demo_unordered) demo_filter () demo_sfm_data () demo_pair
      (demo_matches 8) demo_prior).outcome = Outcome.returned true ∧
    (∀ i ∈ (estimate (demo_collaborators demo_unordered) demo_filter () demo_sfm_data () demo_pair
      (demo_matches 8) demo_view_0 demo_view_1 demo_pinhole demo_pinhole).vec_inliers, i < (demo_matches 8).length) ∧
    (Robust_estimation (demo_collaborators demo_unordered) demo_filter () demo_sfm_data () demo_pair
      (demo_matches 8) demo_prior).geometric_inliers.length =
      (estimate (demo_collaborators demo_unordered) demo_filter () demo_sfm_data () demo_pair
      (demo_matches 8) demo_view_0 demo_view_1 demo_pinhole demo_pinhole).vec_inliers.length ∧
    ∀ k i : Nat, (estimate (demo_collaborators demo_unordered) demo_filter () demo_sfm_data () demo_pair
      (demo_matches 8) demo_view_0 demo_view_1 demo_pinhole demo_pinhole).vec_inliers[k]? = some i →
      ∃ m, (demo_matches 8)[i]? = some m ∧
        (Robust_estimation (demo_collaborators demo_unordered) demo_filter () demo_sfm_data () demo_pair
      (demo_matches 8) demo_prior).geometric_inliers[k]? = some m :=
  ⟨rfl, rfl, rfl, rfl, by decide, by decide,
    Robust_estimation_accepted_materialises (demo_collaborators demo_unordered) demo_filter () demo_sfm_data () demo_pair
      (demo_matches 8) demo_prior
      demo_view_0 demo_view_1 rfl rfl demo_pinhole demo_pinhole rfl rfl
      (by decide) (by decide)⟩

/-- C8 on a pair whose second view has a spherical camera. -/
theorem Robust_estimation_invalid_cameras_idempotent_witness :
    demo_sfm_data.views demo_pair_spherical.1 = some demo_view_0 ∧
    demo_sfm_data.views demo_pair_spherical.2 = some demo_view_3 ∧
    (demo_sfm_data.intrinsics demo_view_0.id_intrinsic = none ∨
      demo_sfm_data.intrinsics demo_view_3.id_intrinsic = none ∨
      (∃ cam, camera_of demo_sfm_data demo_view_0 = some cam ∧ (demo_collaborators List.range).isPinhole cam.getType = false) ∨
      (∃ cam, camera_of demo_sfm_data demo_view_3 = some cam ∧ (demo_collaborators List.range).isPinhole cam.getType = false)) ∧
    Robust_estimation (demo_collaborators List.range) demo_filter () demo_sfm_data () demo_pair_spherical
      (demo_matches 8) demo_prior = ⟨Outcome.returned false, demo_filter, [], ()⟩ ∧
    (∀ again : IndMatches,
      Robust_estimation (demo_collaborators List.range)
        (Robust_estimation (demo_collaborators List.range) demo_filter () demo_sfm_data () demo_pair_spherical
      (demo_matches 8) demo_prior).self
        (Robust_estimation (demo_collaborators List.range) demo_filter () demo_sfm_data () demo_pair_spherical
      (demo_matches 8) demo_prior).rng
        demo_sfm_data () demo_pair_spherical (demo_matches 8) again =
      ⟨Outcome.returned false, demo_filter, [], ()⟩) ∧
    (∀ C2 : Collaborators Unit Nat Unit Nat Unit Unit, C2.isPinhole = (demo_collaborators List.range).isPinhole →
      Robust_estimation C2 demo_filter () demo_sfm_data () demo_pair_spherical
        (demo_matches 8) demo_prior =
      ⟨Outcome.returned false, demo_filter, [], ()⟩) :=
  ⟨rfl, rfl, Or.inr (Or.inr (Or.inr ⟨demo_spherical, rfl, rfl⟩)),
    Robust_estimation_invalid_cameras_idempotent (demo_collaborators List.range) demo_filter () demo_sfm_data ()
      demo_pair_spherical (demo_matches 8) demo_prior
      demo_view_0 demo_view_3 rfl rfl
      (Or.inr (Or.inr (Or.inr ⟨demo_spherical, rfl, rfl⟩)))⟩

/-- C10 on a pair whose second view is not in the dataset. -/
theorem Robust_estimation_missing_view_throws_witness :
    (demo_sfm_data.views demo_pair_missing.1 = none ∨ demo_sfm_data.views demo_pair_missing.2 = none) ∧
    (Robust_estimation (demo_collaborators List.range) demo_filter () demo_sfm_data () demo_pair_missing
      (demo_matches 8) demo_prior).outcome = Outcome.out_of_range ∧
    (Robust_estimation (demo_collaborators List.range) demo_filter () demo_sfm_data () demo_pair_missing
      (demo_matches 8) demo_prior).outcome ≠ Outcome.returned false ∧
    (Robust_estimation (demo_collaborators List.range) demo_filter () demo_sfm_data () demo_pair_missing
      (demo_matches 8) demo_prior).geometric_inliers = [] ∧
    (Robust_estimation (demo_collaborators List.range) demo_filter () demo_sfm_data () demo_pair_missing
      (demo_matches 8) demo_prior).self = demo_filter ∧
    (∀ (isPinhole2 : EINTRINSIC → Bool)
        (intrinsics2 : IndexT → Option (Option (IntrinsicBase Unit))),
      Robust_estimation { (demo_collaborators List.range) with isPinhole := isPinhole2 } demo_filter ()
        { demo_sfm_data with intrinsics := intrinsics2 } () demo_pair_missing
        (demo_matches 8) demo_prior =
      ⟨Outcome.out_of_range, demo_filter, [], ()⟩) :=
  ⟨Or.inr rfl,
    Robust_estimation_missing_view_throws (demo_collaborators List.range) demo_filter () demo_sfm_data ()
      demo_pair_missing (demo_matches 8) demo_prior (Or.inr rfl)⟩

end openMVG.matching_image_collection
